import Mathlib

/-!
Shallow embedding of `src/luka/react_browser_agent.py` (the Command
Dispatcher / Agent Loop of the Luka ReAct browser agent).

The external collaborators — the Selenium browser actuator
(`luka.tools.SeleniumSandbox`), the line-addressable text document
(`luka.memory.TextEditorMemory`), the FIFO history buffer
(`luka.memory.FIFOConversationMemory`), the human feedback channel and the
LLM oracle — live outside `src/` and are modelled abstractly at their
interface boundary (spec section 6): each actuator / document method either
succeeds or raises an error with a text description.  A raised Python
exception is modelled as `Except.error`; a method call that the Python code
wraps in `try/except` is modelled by pattern matching on the optional error
component of the collaborator's result.

`Message(role, content, timestamp)` from `luka.utils` is modelled with a
`Nat` timestamp (`datetime.now()` is threaded in as the parameter `now`).
-/

namespace Luka

/-- A `luka.utils.Message`: role string, content, timestamp. -/
structure Message where
  role : String
  content : String
  timestamp : Nat
deriving Repr, DecidableEq

/-- Python `args[i]` on a list: raises `IndexError` when out of range. -/
def pyGet (args : List String) (i : Nat) : Except String String :=
  match args.get? i with
  | some a => Except.ok a
  | none => Except.error "list index out of range"

/-- Decimal digit value of a character, `none` when not a digit. -/
def digitVal (c : Char) : Option Nat :=
  if '0' ≤ c ∧ c ≤ '9' then some (c.toNat - 48) else none

/-- Parse a nonempty run of decimal digits, `none` otherwise. -/
def parseDigits (cs : List Char) : Option Nat :=
  match cs with
  | [] => none
  | _ =>
    cs.foldl
      (fun acc c =>
        match acc, digitVal c with
        | some a, some d => some (a * 10 + d)
        | _, _ => none)
      (some 0)

/-- Python `int(s)` on a string: parses an optionally-signed decimal
literal, raising `ValueError` otherwise. -/
def pyInt (s : String) : Except String Int :=
  let r : Option Int :=
    match s.data with
    | '-' :: rest => (parseDigits rest).map (fun n => -(n : Int))
    | '+' :: rest => (parseDigits rest).map (fun n => (n : Int))
    | cs => (parseDigits cs).map (fun n => (n : Int))
  match r with
  | some n => Except.ok n
  | none => Except.error ("invalid literal for int with base 10: " ++ s)

/-- Interface of the browser actuator (`SeleniumSandbox`), spec section 6.
Each mutating method returns the post-action actuator state together with
`some errorText` when the call raises, `none` when it succeeds.  The
read-only properties `current_url` and `scroll_progress` never raise;
`scroll_progress` is abstracted to the already-formatted scroll status
string (percent, scroll-y, scroll-height). -/
structure Actuator (σ : Type) where
  visit : σ → String → σ × Option String
  scroll : σ → Bool → σ × Option String
  click : σ → Int → σ × Option String
  typeText : σ → Int → String → Bool → σ × Option String
  go_back : σ → σ × Option String
  go_forward : σ → σ × Option String
  current_url : σ → String
  scroll_progress : σ → String
  simplify_web_elements : σ → Option String

/-- Interface of the line-addressable document (`TextEditorMemory`), spec
sections 4.2 and 6: `insert(text, at_line)` and
`replace(text, (from_line, to_line))`, each returning the post-mutation
document state and `some errorText` when the mutation raises. -/
structure TxtMem (τ : Type) where
  insert : τ → String → Int → τ × Option String
  replace : τ → String → Int × Int → τ × Option String

/-- The `info_str` built after every browser command from the post-action
actuator state (lines 245-248 of `react_browser_agent.py`). -/
def infoStr {σ : Type} (A : Actuator σ) (s : σ) : String :=
  "Current url: " ++ A.current_url s ++
    "\nCurrent scroll position: " ++ A.scroll_progress s

/-- Document-role ("txt") failure feedback message (lines 198 and 205). -/
def txtErrMsg (e : String) (now : Nat) : Message :=
  ⟨"txt", "Action unsuccessful, an exception occured: " ++ e, now⟩

/-- Browser-role success feedback message (line 252). -/
def browserOkMsg {σ : Type} (A : Actuator σ) (s : σ) (now : Nat) : Message :=
  ⟨"browser", "Action successful!\n" ++ infoStr A s, now⟩

/-- Browser-role failure feedback message (line 251). -/
def browserErrMsg {σ : Type} (A : Actuator σ) (e : String) (s : σ)
    (now : Nat) : Message :=
  ⟨"browser", "Action unsuccessful, an exception occured: " ++ e ++ "\n" ++
    infoStr A s, now⟩

/-- The browser-command section of `_act` (lines 207-243): runs the actuator
call for `command`, returning `exception_msg` (`none` on success) and the
post-action actuator state.  `VISIT`, `CLICK`, `TYPE`, `TYPESUBMIT` wrap
argument access, parsing and the actuator call in `try/except`; `SUP`,
`SDOWN`, `BACK`, `FORWARD` do not, so an actuator failure there is an
uncaught exception (`Except.error`).  Any other command sets
`exception_msg = "Invalid command."`. -/
def browserStep {σ : Type} (A : Actuator σ) (s : σ) (command : String)
    (args : List String) : Except String (Option String × σ) :=
  if command = "VISIT" then
    match pyGet args 0 with
    | Except.error e => Except.ok (some e, s)
    | Except.ok url =>
      match A.visit s url with
      | (s2, em) => Except.ok (em, s2)
  else if command = "SUP" then
    match A.scroll s false with
    | (_, some e) => Except.error e
    | (s2, none) => Except.ok (none, s2)
  else if command = "SDOWN" then
    match A.scroll s true with
    | (_, some e) => Except.error e
    | (s2, none) => Except.ok (none, s2)
  else if command = "CLICK" then
    match pyGet args 0 with
    | Except.error e => Except.ok (some e, s)
    | Except.ok a0 =>
      match pyInt a0 with
      | Except.error e => Except.ok (some e, s)
      | Except.ok n =>
        match A.click s n with
        | (s2, em) => Except.ok (em, s2)
  else if command = "TYPE" then
    match pyGet args 0 with
    | Except.error e => Except.ok (some e, s)
    | Except.ok a0 =>
      match pyInt a0 with
      | Except.error e => Except.ok (some e, s)
      | Except.ok n =>
        match pyGet args 1 with
        | Except.error e => Except.ok (some e, s)
        | Except.ok a1 =>
          match A.typeText s n a1 false with
          | (s2, em) => Except.ok (em, s2)
  else if command = "TYPESUBMIT" then
    match pyGet args 0 with
    | Except.error e => Except.ok (some e, s)
    | Except.ok a0 =>
      match pyInt a0 with
      | Except.error e => Except.ok (some e, s)
      | Except.ok n =>
        match pyGet args 1 with
        | Except.error e => Except.ok (some e, s)
        | Except.ok a1 =>
          match A.typeText s n a1 true with
          | (s2, em) => Except.ok (em, s2)
  else if command = "BACK" then
    match A.go_back s with
    | (_, some e) => Except.error e
    | (s2, none) => Except.ok (none, s2)
  else if command = "FORWARD" then
    match A.go_forward s with
    | (_, some e) => Except.error e
    | (s2, none) => Except.ok (none, s2)
  else
    Except.ok (some "Invalid command.", s)

/-- `ReActBrowserAgent._act` (lines 177-252): dispatch one command.
Returns `(completed, messages, sandboxState, txtState)`, or `Except.error`
when an exception escapes `_act` uncaught.  `fb` is the human feedback
channel used by `YIELD` / `ASK` (`_get_feedback`). -/
def act {σ τ : Type} (A : Actuator σ) (T : TxtMem τ) (fb : String → String)
    (now : Nat) (s : σ) (t : τ) (command : String) (args : List String) :
    Except String (Bool × List Message × σ × τ) :=
  if command = "COMPLETE" then
    match pyGet args 0 with
    | Except.error e => Except.error e
    | Except.ok a0 => Except.ok (true, [⟨"agent", a0, now⟩], s, t)
  else if command = "YIELD" ∨ command = "ASK" then
    match pyGet args 0 with
    | Except.error e => Except.error e
    | Except.ok a0 =>
      Except.ok (false, [⟨"agent", a0, now⟩, ⟨"user", fb a0, now⟩], s, t)
  else if command = "TINSERT" then
    match pyGet args 1 with
    | Except.error e => Except.ok (false, [txtErrMsg e now], s, t)
    | Except.ok a1 =>
      match pyGet args 0 with
      | Except.error e => Except.ok (false, [txtErrMsg e now], s, t)
      | Except.ok a0 =>
        match pyInt a0 with
        | Except.error e => Except.ok (false, [txtErrMsg e now], s, t)
        | Except.ok n =>
          match T.insert t a1 n with
          | (t2, some e) => Except.ok (false, [txtErrMsg e now], s, t2)
          | (t2, none) =>
            Except.ok (false,
              [⟨"txt", "Text inserted at line " ++ a0, now⟩], s, t2)
  else if command = "TREPLACE" then
    match pyGet args 2 with
    | Except.error e => Except.ok (false, [txtErrMsg e now], s, t)
    | Except.ok a2 =>
      match pyGet args 0 with
      | Except.error e => Except.ok (false, [txtErrMsg e now], s, t)
      | Except.ok a0 =>
        match pyInt a0 with
        | Except.error e => Except.ok (false, [txtErrMsg e now], s, t)
        | Except.ok n0 =>
          match pyGet args 1 with
          | Except.error e => Except.ok (false, [txtErrMsg e now], s, t)
          | Except.ok a1 =>
            match pyInt a1 with
            | Except.error e => Except.ok (false, [txtErrMsg e now], s, t)
            | Except.ok n1 =>
              match T.replace t a2 (n0, n1) with
              | (t2, some e) => Except.ok (false, [txtErrMsg e now], s, t2)
              | (t2, none) =>
                Except.ok (false,
                  [⟨"txt", "Text replaced from line " ++ a0 ++ " to line " ++
                    a1, now⟩], s, t2)
  else
    match browserStep A s command args with
    | Except.error e => Except.error e
    | Except.ok (some e, s2) =>
      Except.ok (false, [browserErrMsg A e s2 now], s2, t)
    | Except.ok (none, s2) =>
      Except.ok (false, [browserOkMsg A s2 now], s2, t)

/-- The `_AgentReply` pydantic model (lines 116-119): one structured oracle
reply per turn. -/
structure AgentReply where
  rationale : String
  command : String
  args : List String
deriving Repr, DecidableEq

/-- The `USER_PROMPT` template string (lines 99-114). -/
def USER_PROMPT : String :=
  " \n------------------\nCURRENT BROWSER CONTENT:\n$dom\n------------------\nHISTORY:\n$history\n------------------\nTXT FILE:\n$txt_file\n------------------\nOBJECTIVE:\n$objective\n------------------\nYOUR COMMAND:\n"

/-- `user_prompt` construction (line 264): the four placeholder
substitutions, in the order they appear in the source. -/
def render_user_prompt (dom history objective txt_file : String) : String :=
  (((USER_PROMPT.replace "$dom" dom).replace "$history" history).replace
    "$objective" objective).replace "$txt_file" txt_file

/-- Observable events of one loop turn, used to state ordering properties of
`run`: prompt rendering, the oracle round-trip, each
`FIFOConversationMemory.insert` call, the `_act` dispatch, the loop-condition
re-check, and an uncaught exception aborting the run. -/
inductive Event where
  | renderPrompt : String → Event
  | oracleCall : AgentReply → Event
  | insertMsg : Message → Event
  | dispatchAct : String → List String → Event
  | checkTerminal : Bool → Event
  | abortRun : String → Event
deriving Repr, DecidableEq

/-- Loop state of `run`: `fifo` is the chronological sequence of messages
passed to `FIFOConversationMemory.insert` so far, `sb` / `txt` the external
collaborator states, `completed` the loop flag (line 256), and `aborted`
records an uncaught exception (a raise that escapes the loop body). -/
structure LoopSt (σ τ : Type) where
  fifo : List Message
  sb : σ
  txt : τ
  completed : Bool
  aborted : Option String
deriving Repr, DecidableEq

/-- The environment of a run: the two external collaborator interfaces, the
human feedback channel, the oracle (user prompt ↦ structured reply), the
renderings of history buffer and document used in the prompt (both external
components), the objective, and the clock value. -/
structure Env (σ τ : Type) where
  A : Actuator σ
  T : TxtMem τ
  fb : String → String
  oracle : String → AgentReply
  renderHist : List Message → String
  renderTxt : τ → String
  objective : String
  now : Nat

/-- The prompt rendered at the top of each turn (lines 259-264): simplified
DOM (or `"[empty page]"`), history, objective and document substituted into
`USER_PROMPT`. -/
def turnPrompt {σ τ : Type} (E : Env σ τ) (st : LoopSt σ τ) : String :=
  let dom :=
    match E.A.simplify_web_elements st.sb with
    | some d => d
    | none => "[empty page]"
  render_user_prompt dom (E.renderHist st.fifo) E.objective
    (E.renderTxt st.txt)

/-- The raw action message content `f"{reply.command} {' '.join(reply.args)}"`
(line 285). -/
def commandContent (reply : AgentReply) : String :=
  reply.command ++ " " ++ String.intercalate " " reply.args

/-- One body iteration of the `while not completed` loop (lines 258-293):
render the prompt, call the oracle, insert the rationale message, insert the
raw action message, dispatch via `_act`, insert each resulting message and
record the new `completed` flag.  When `_act` raises, the exception
propagates: no result message is inserted and the run is aborted. -/
def runTurn {σ τ : Type} (E : Env σ τ) (st : LoopSt σ τ) :
    LoopSt σ τ × List Event :=
  let prompt := turnPrompt E st
  let reply := E.oracle prompt
  let m1 : Message := ⟨"agent", reply.rationale, E.now⟩
  let m2 : Message := ⟨"agent", commandContent reply, E.now⟩
  let fifo2 := st.fifo ++ [m1, m2]
  let pre : List Event :=
    [Event.renderPrompt prompt, Event.oracleCall reply, Event.insertMsg m1,
      Event.insertMsg m2, Event.dispatchAct reply.command reply.args]
  match act E.A E.T E.fb E.now st.sb st.txt reply.command reply.args with
  | Except.error e =>
    ({ st with fifo := fifo2, aborted := some e }, pre ++ [Event.abortRun e])
  | Except.ok r =>
    (⟨fifo2 ++ r.2.1, r.2.2.1, r.2.2.2, r.1, none⟩,
      pre ++ r.2.1.map Event.insertMsg ++ [Event.checkTerminal r.1])

/-- The `while not completed` loop of `run` (lines 256-293), fuel-bounded
(the Python loop has no built-in bound).  The loop exits when `completed`
is set; an uncaught exception (`aborted`) also ends it, by propagating. -/
def run {σ τ : Type} (E : Env σ τ) : Nat → LoopSt σ τ → LoopSt σ τ × List Event
  | 0, st => (st, [])
  | fuel + 1, st =>
    if st.completed ∨ st.aborted.isSome then (st, [])
    else
      let p := runTurn E st
      let q := run E fuel p.1
      (q.1, p.2 ++ q.2)

/-- `ReActBrowserAgent.run` (lines 254-293): insert the objective as a
user message (line 255), start with `completed = False`, then loop. -/
def runAgent {σ τ : Type} (E : Env σ τ) (s0 : σ) (t0 : τ) (fuel : Nat) :
    LoopSt σ τ × List Event :=
  run E fuel ⟨[⟨"user", E.objective, E.now⟩], s0, t0, false, none⟩

/-!
Concrete test fixtures.  The actuator, document, feedback channel and
oracle are external collaborators; these instances satisfy their interface
contracts (spec section 6) and are used only to instantiate witnesses and
counterexamples at concrete inputs.
-/

/-- A minimal concrete browser state for test instances. -/
structure SBState where
  url : String
  scrollY : Nat
deriving Repr, DecidableEq

/-- A concrete actuator whose every method succeeds. -/
def sbOk : Actuator SBState where
  visit := fun s u => ({ s with url := u }, none)
  scroll := fun s down =>
    (if down then { s with scrollY := s.scrollY + 1 }
     else { s with scrollY := s.scrollY - 1 }, none)
  click := fun s _ => (s, none)
  typeText := fun s _ _ _ => (s, none)
  go_back := fun s => (s, none)
  go_forward := fun s => (s, none)
  current_url := fun s => s.url
  scroll_progress := fun s =>
    "0.00% (scroll-y=" ++ toString s.scrollY ++ ", scroll-height=100)"
  simplify_web_elements := fun _ => none

/-- A concrete actuator whose scroll / history-navigation methods raise, per
the actuator contract that each method either succeeds or raises an error
with a text description. -/
def sbScrollFail : Actuator SBState :=
  { sbOk with
    scroll := fun s _ => (s, some "scroll failure")
    go_back := fun s => (s, some "no previous page")
    go_forward := fun s => (s, some "no next page") }

/-- The initial browser state (`about:blank`). -/
def sb0 : SBState := ⟨"about:blank", 0⟩

/-- Split a character list on newline characters (structural helper). -/
def splitLinesAux : List Char → List Char → List String
  | [], acc => [String.mk acc.reverse]
  | c :: rest, acc =>
    if c = '\n' then String.mk acc.reverse :: splitLinesAux rest []
    else splitLinesAux rest (c :: acc)

/-- Split a string into its lines (on newline characters). -/
def splitLines (s : String) : List String :=
  splitLinesAux s.data []

/-- Modelled from the spec: the line-addressable document
(`luka.memory.TextEditorMemory`, whose source is not under `src/`), spec
section 4.2 — `insert` fails with a range error if `at_line < 1` or
`at_line > line_count + 1` or the token budget would be exceeded; `replace`
fails if `from_line > to_line`, either bound is outside `[1, line_count]`,
or the token budget would be exceeded.  Used only as a concrete instance of
the `TxtMem` interface for witnesses. -/
def specDoc (tokenize : String → Nat) (max_size : Nat) :
    TxtMem (List String) where
  insert := fun t text at_line =>
    if at_line < 1 ∨ at_line > (t.length : Int) + 1 then
      (t, some ("Line number out of range: " ++ toString at_line))
    else
      let t2 := t.take (at_line.toNat - 1) ++ [text] ++
        t.drop (at_line.toNat - 1)
      if max_size < (t2.map tokenize).sum then
        (t, some "Token budget exceeded")
      else (t2, none)
  replace := fun t text r =>
    if r.1 > r.2 ∨ r.1 < 1 ∨ r.2 > (t.length : Int) then
      (t, some ("Line range out of bounds: " ++ toString r.1 ++ " to " ++
        toString r.2))
    else
      let t2 := t.take (r.1.toNat - 1) ++ splitLines text ++ t.drop r.2.toNat
      if max_size < (t2.map tokenize).sum then
        (t, some "Token budget exceeded")
      else (t2, none)

/-- Concrete document instance: length tokenizer, budget 100 tokens. -/
def docT : TxtMem (List String) := specDoc String.length 100

/-- Concrete human feedback channel. -/
def fbEcho : String → String := fun _ => "ok, go on"

/-- Concrete environment over the always-succeeding actuator, parametrised
by the oracle. -/
def envOk (oracle : String → AgentReply) : Env SBState (List String) where
  A := sbOk
  T := docT
  fb := fbEcho
  oracle := oracle
  renderHist := fun msgs => String.intercalate "\n" (msgs.map Message.content)
  renderTxt := fun t => String.intercalate "\n" t
  objective := "buy paperclips"
  now := 0

/-- A concrete actuator whose every method raises, per the actuator
contract. -/
def sbFailAll : Actuator SBState :=
  { sbOk with
    visit := fun s _ => (s, some "network error")
    scroll := fun s _ => (s, some "scroll failure")
    click := fun s _ => (s, some "no such element")
    typeText := fun s _ _ _ => (s, some "element not interactable")
    go_back := fun s => (s, some "no previous page")
    go_forward := fun s => (s, some "no next page") }

/-- Whether an event is an `_act` dispatch. -/
def isDispatchEvent : Event → Bool
  | Event.dispatchAct _ _ => true
  | _ => false

/-- Result-message insertions contribute no dispatch events. -/
lemma countP_isDispatch_map_insert (msgs : List Message) :
    (msgs.map Event.insertMsg).countP (fun ev => isDispatchEvent ev) = 0 := by
  induction msgs with
  | nil => simp
  | cons m rest ih => simp [List.countP_cons, isDispatchEvent, ih]

/-- `runTurn` on a turn whose dispatch returns normally. -/
lemma runTurn_eq_ok {σ τ : Type} (E : Env σ τ) (st : LoopSt σ τ)
    (reply : AgentReply) (done : Bool) (msgs : List Message) (s2 : σ) (t2 : τ)
    (hr : E.oracle (turnPrompt E st) = reply)
    (h : act E.A E.T E.fb E.now st.sb st.txt reply.command reply.args =
      Except.ok (done, msgs, s2, t2)) :
    runTurn E st =
      (⟨st.fifo ++ [⟨"agent", reply.rationale, E.now⟩,
          ⟨"agent", commandContent reply, E.now⟩] ++ msgs, s2, t2, done, none⟩,
        [Event.renderPrompt (turnPrompt E st), Event.oracleCall reply,
          Event.insertMsg ⟨"agent", reply.rationale, E.now⟩,
          Event.insertMsg ⟨"agent", commandContent reply, E.now⟩,
          Event.dispatchAct reply.command reply.args] ++
          msgs.map Event.insertMsg ++ [Event.checkTerminal done]) := by
  simp [runTurn, hr, h]

/-- `runTurn` on a turn whose dispatch raises an uncaught exception. -/
lemma runTurn_eq_error {σ τ : Type} (E : Env σ τ) (st : LoopSt σ τ)
    (reply : AgentReply) (e : String)
    (hr : E.oracle (turnPrompt E st) = reply)
    (h : act E.A E.T E.fb E.now st.sb st.txt reply.command reply.args =
      Except.error e) :
    runTurn E st =
      ({ st with
          fifo := st.fifo ++ [⟨"agent", reply.rationale, E.now⟩,
            ⟨"agent", commandContent reply, E.now⟩],
          aborted := some e },
        [Event.renderPrompt (turnPrompt E st), Event.oracleCall reply,
          Event.insertMsg ⟨"agent", reply.rationale, E.now⟩,
          Event.insertMsg ⟨"agent", commandContent reply, E.now⟩,
          Event.dispatchAct reply.command reply.args, Event.abortRun e]) := by
  simp [runTurn, hr, h]

/-- The loop performs no further turn once completed or aborted. -/
lemma run_stop {σ τ : Type} (E : Env σ τ) (fuel : Nat) (st : LoopSt σ τ)
    (h : st.completed = true ∨ st.aborted.isSome) :
    run E fuel st = (st, []) := by
  cases fuel <;> simp [run, h]

/-- Every normally-returning dispatch yields a nonempty message list. -/
lemma act_ok_msgs_ne_nil {σ τ : Type} (A : Actuator σ) (T : TxtMem τ)
    (fb : String → String) (now : Nat) (s : σ) (t : τ) (command : String)
    (args : List String) (done : Bool) (msgs : List Message) (s' : σ) (t' : τ)
    (h : act A T fb now s t command args = Except.ok (done, msgs, s', t')) :
    msgs ≠ [] := by
  unfold act at h
  repeat' split at h
  all_goals simp at h
  all_goals (obtain ⟨-, hm, -, -⟩ := h; subst hm; simp)

/-- Claim C1 is false as stated: dispatching `COMPLETE` with an empty
argument list raises an uncaught `IndexError`, so the dispatch produces no
message at all; in the same turn the History Buffer receives only the
rationale and raw-action messages, never a dispatch-result message, and the
run is aborted. -/
theorem c1_counterexample :
    act sbOk docT fbEcho 0 sb0 [] "COMPLETE" [] =
      Except.error "list index out of range" ∧
    (¬ ∃ r, act sbOk docT fbEcho 0 sb0 [] "COMPLETE" [] = Except.ok r) ∧
    (runTurn (envOk (fun _ => ⟨"go", "COMPLETE", []⟩))
        ⟨[], sb0, [], false, none⟩).1.fifo =
      [⟨"agent", "go", 0⟩, ⟨"agent", "COMPLETE ", 0⟩] ∧
    (runTurn (envOk (fun _ => ⟨"go", "COMPLETE", []⟩))
        ⟨[], sb0, [], false, none⟩).1.aborted =
      some "list index out of range" := by
  refine ⟨rfl, ?_, rfl, rfl⟩
  rintro ⟨r, hr⟩
  rw [show act sbOk docT fbEcho 0 sb0 [] "COMPLETE" [] =
    Except.error "list index out of range" from rfl] at hr
  simp at hr

/-- Claim C1 (amended): every dispatch that returns control to the loop
(does not raise an uncaught exception) produces at least one Message, and
all of its messages are inserted into the History Buffer during the same
turn, after the rationale and raw-action messages. -/
theorem c1_amended_dispatch_message {σ τ : Type} (E : Env σ τ)
    (st : LoopSt σ τ) (reply : AgentReply) (done : Bool) (msgs : List Message)
    (s2 : σ) (t2 : τ)
    (hr : E.oracle (turnPrompt E st) = reply)
    (h : act E.A E.T E.fb E.now st.sb st.txt reply.command reply.args =
      Except.ok (done, msgs, s2, t2)) :
    msgs ≠ [] ∧
    (runTurn E st).1.fifo =
      st.fifo ++ [⟨"agent", reply.rationale, E.now⟩,
        ⟨"agent", commandContent reply, E.now⟩] ++ msgs := by
  refine ⟨act_ok_msgs_ne_nil E.A E.T E.fb E.now st.sb st.txt
    reply.command reply.args done msgs s2 t2 h, ?_⟩
  rw [runTurn_eq_ok E st reply done msgs s2 t2 hr h]

/-- Witness for C1 (amended) at a concrete `SDOWN` turn. -/
theorem c1_witness :
    [browserOkMsg sbOk ⟨"about:blank", 1⟩ 0] ≠ ([] : List Message) ∧
    (runTurn (envOk (fun _ => ⟨"scrolling", "SDOWN", []⟩))
        ⟨[], sb0, [], false, none⟩).1.fifo =
      [] ++ [⟨"agent", "scrolling", 0⟩, ⟨"agent", "SDOWN ", 0⟩] ++
        [browserOkMsg sbOk ⟨"about:blank", 1⟩ 0] :=
  c1_amended_dispatch_message (envOk (fun _ => ⟨"scrolling", "SDOWN", []⟩))
    ⟨[], sb0, [], false, none⟩ ⟨"scrolling", "SDOWN", []⟩ false
    [browserOkMsg sbOk ⟨"about:blank", 1⟩ 0] ⟨"about:blank", 1⟩ [] rfl rfl

/-- Claim C2 is false as stated: when the actuator's scroll raises during a
`SUP` dispatch, the dispatcher emits no actuator-role message at all — the
exception propagates uncaught instead of being converted into a message,
and the dispatch does not return with the loop RUNNING. -/
theorem c2_counterexample :
    act sbScrollFail docT fbEcho 0 sb0 [] "SUP" [] =
      Except.error "scroll failure" ∧
    ¬ ∃ r, act sbScrollFail docT fbEcho 0 sb0 [] "SUP" [] = Except.ok r := by
  refine ⟨rfl, ?_⟩
  rintro ⟨r, hr⟩
  rw [show act sbScrollFail docT fbEcho 0 sb0 [] "SUP" [] =
    Except.error "scroll failure" from rfl] at hr
  simp at hr

/-- Claim C2 (amended): for `VISIT`, `CLICK`, `TYPE`, `TYPESUBMIT` the
dispatcher behaves as claimed — on success it emits one actuator-role
message with the post-action actuator status, and on failure one
actuator-role message containing the error plus the same post-action
status, the loop remaining RUNNING.  For `SUP`, `SDOWN`, `BACK`, `FORWARD`
the success half holds, but their actuator calls are not guarded: an
actuator failure propagates as an uncaught exception instead of being
converted into an actuator-role message. -/
theorem c2_amended_browser_dispatch {σ τ : Type} (A : Actuator σ)
    (T : TxtMem τ) (fb : String → String) (now : Nat) (s : σ) (t : τ)
    (args : List String) :
    (∀ url s2, pyGet args 0 = Except.ok url → A.visit s url = (s2, none) →
      act A T fb now s t "VISIT" args =
        Except.ok (false, [browserOkMsg A s2 now], s2, t)) ∧
    (∀ url s2 e, pyGet args 0 = Except.ok url → A.visit s url = (s2, some e) →
      act A T fb now s t "VISIT" args =
        Except.ok (false, [browserErrMsg A e s2 now], s2, t)) ∧
    (∀ a0 n s2, pyGet args 0 = Except.ok a0 → pyInt a0 = Except.ok n →
      A.click s n = (s2, none) →
      act A T fb now s t "CLICK" args =
        Except.ok (false, [browserOkMsg A s2 now], s2, t)) ∧
    (∀ a0 n s2 e, pyGet args 0 = Except.ok a0 → pyInt a0 = Except.ok n →
      A.click s n = (s2, some e) →
      act A T fb now s t "CLICK" args =
        Except.ok (false, [browserErrMsg A e s2 now], s2, t)) ∧
    (∀ a0 n a1 s2, pyGet args 0 = Except.ok a0 → pyInt a0 = Except.ok n →
      pyGet args 1 = Except.ok a1 → A.typeText s n a1 false = (s2, none) →
      act A T fb now s t "TYPE" args =
        Except.ok (false, [browserOkMsg A s2 now], s2, t)) ∧
    (∀ a0 n a1 s2 e, pyGet args 0 = Except.ok a0 → pyInt a0 = Except.ok n →
      pyGet args 1 = Except.ok a1 → A.typeText s n a1 false = (s2, some e) →
      act A T fb now s t "TYPE" args =
        Except.ok (false, [browserErrMsg A e s2 now], s2, t)) ∧
    (∀ a0 n a1 s2, pyGet args 0 = Except.ok a0 → pyInt a0 = Except.ok n →
      pyGet args 1 = Except.ok a1 → A.typeText s n a1 true = (s2, none) →
      act A T fb now s t "TYPESUBMIT" args =
        Except.ok (false, [browserOkMsg A s2 now], s2, t)) ∧
    (∀ a0 n a1 s2 e, pyGet args 0 = Except.ok a0 → pyInt a0 = Except.ok n →
      pyGet args 1 = Except.ok a1 → A.typeText s n a1 true = (s2, some e) →
      act A T fb now s t "TYPESUBMIT" args =
        Except.ok (false, [browserErrMsg A e s2 now], s2, t)) ∧
    (∀ s2, A.scroll s false = (s2, none) →
      act A T fb now s t "SUP" args =
        Except.ok (false, [browserOkMsg A s2 now], s2, t)) ∧
    (∀ s2 e, A.scroll s false = (s2, some e) →
      act A T fb now s t "SUP" args = Except.error e) ∧
    (∀ s2, A.scroll s true = (s2, none) →
      act A T fb now s t "SDOWN" args =
        Except.ok (false, [browserOkMsg A s2 now], s2, t)) ∧
    (∀ s2 e, A.scroll s true = (s2, some e) →
      act A T fb now s t "SDOWN" args = Except.error e) ∧
    (∀ s2, A.go_back s = (s2, none) →
      act A T fb now s t "BACK" args =
        Except.ok (false, [browserOkMsg A s2 now], s2, t)) ∧
    (∀ s2 e, A.go_back s = (s2, some e) →
      act A T fb now s t "BACK" args = Except.error e) ∧
    (∀ s2, A.go_forward s = (s2, none) →
      act A T fb now s t "FORWARD" args =
        Except.ok (false, [browserOkMsg A s2 now], s2, t)) ∧
    (∀ s2 e, A.go_forward s = (s2, some e) →
      act A T fb now s t "FORWARD" args = Except.error e) := by
  refine ⟨?_, ?_, ?_, ?_, ?_, ?_, ?_, ?_, ?_, ?_, ?_, ?_, ?_, ?_, ?_, ?_⟩ <;>
    (intros; simp [act, browserStep, *])

/-- Witness for C2 (amended): each of the sixteen cases at a concrete
input, success cases over the always-succeeding actuator and failure cases
over the always-raising actuator. -/
theorem c2_witness :
    act sbOk docT fbEcho 0 sb0 [] "VISIT" ["www.x.com"] =
      Except.ok (false, [browserOkMsg sbOk ⟨"www.x.com", 0⟩ 0],
        ⟨"www.x.com", 0⟩, []) ∧
    act sbFailAll docT fbEcho 0 sb0 [] "VISIT" ["www.x.com"] =
      Except.ok (false, [browserErrMsg sbFailAll "network error" sb0 0],
        sb0, []) ∧
    act sbOk docT fbEcho 0 sb0 [] "CLICK" ["3"] =
      Except.ok (false, [browserOkMsg sbOk sb0 0], sb0, []) ∧
    act sbFailAll docT fbEcho 0 sb0 [] "CLICK" ["3"] =
      Except.ok (false, [browserErrMsg sbFailAll "no such element" sb0 0],
        sb0, []) ∧
    act sbOk docT fbEcho 0 sb0 [] "TYPE" ["3", "hi"] =
      Except.ok (false, [browserOkMsg sbOk sb0 0], sb0, []) ∧
    act sbFailAll docT fbEcho 0 sb0 [] "TYPE" ["3", "hi"] =
      Except.ok (false,
        [browserErrMsg sbFailAll "element not interactable" sb0 0],
        sb0, []) ∧
    act sbOk docT fbEcho 0 sb0 [] "TYPESUBMIT" ["3", "hi"] =
      Except.ok (false, [browserOkMsg sbOk sb0 0], sb0, []) ∧
    act sbFailAll docT fbEcho 0 sb0 [] "TYPESUBMIT" ["3", "hi"] =
      Except.ok (false,
        [browserErrMsg sbFailAll "element not interactable" sb0 0],
        sb0, []) ∧
    act sbOk docT fbEcho 0 sb0 [] "SUP" [] =
      Except.ok (false, [browserOkMsg sbOk ⟨"about:blank", 0⟩ 0],
        ⟨"about:blank", 0⟩, []) ∧
    act sbFailAll docT fbEcho 0 sb0 [] "SUP" [] =
      Except.error "scroll failure" ∧
    act sbOk docT fbEcho 0 sb0 [] "SDOWN" [] =
      Except.ok (false, [browserOkMsg sbOk ⟨"about:blank", 1⟩ 0],
        ⟨"about:blank", 1⟩, []) ∧
    act sbFailAll docT fbEcho 0 sb0 [] "SDOWN" [] =
      Except.error "scroll failure" ∧
    act sbOk docT fbEcho 0 sb0 [] "BACK" [] =
      Except.ok (false, [browserOkMsg sbOk sb0 0], sb0, []) ∧
    act sbFailAll docT fbEcho 0 sb0 [] "BACK" [] =
      Except.error "no previous page" ∧
    act sbOk docT fbEcho 0 sb0 [] "FORWARD" [] =
      Except.ok (false, [browserOkMsg sbOk sb0 0], sb0, []) ∧
    act sbFailAll docT fbEcho 0 sb0 [] "FORWARD" [] =
      Except.error "no next page" := by
  have hOk := c2_amended_browser_dispatch sbOk docT fbEcho 0 sb0 []
  have hFail := c2_amended_browser_dispatch sbFailAll docT fbEcho 0 sb0 []
  exact ⟨(hOk ["www.x.com"]).1 "www.x.com" ⟨"www.x.com", 0⟩ rfl rfl,
    (hFail ["www.x.com"]).2.1 "www.x.com" sb0 "network error" rfl rfl,
    (hOk ["3"]).2.2.1 "3" 3 sb0 rfl rfl rfl,
    (hFail ["3"]).2.2.2.1 "3" 3 sb0 "no such element" rfl rfl rfl,
    (hOk ["3", "hi"]).2.2.2.2.1 "3" 3 "hi" sb0 rfl rfl rfl rfl,
    (hFail ["3", "hi"]).2.2.2.2.2.1 "3" 3 "hi" sb0 "element not interactable"
      rfl rfl rfl rfl,
    (hOk ["3", "hi"]).2.2.2.2.2.2.1 "3" 3 "hi" sb0 rfl rfl rfl rfl,
    (hFail ["3", "hi"]).2.2.2.2.2.2.2.1 "3" 3 "hi" sb0
      "element not interactable" rfl rfl rfl rfl,
    (hOk []).2.2.2.2.2.2.2.2.1 ⟨"about:blank", 0⟩ rfl,
    (hFail []).2.2.2.2.2.2.2.2.2.1 sb0 "scroll failure" rfl,
    (hOk []).2.2.2.2.2.2.2.2.2.2.1 ⟨"about:blank", 1⟩ rfl,
    (hFail []).2.2.2.2.2.2.2.2.2.2.2.1 sb0 "scroll failure" rfl,
    (hOk []).2.2.2.2.2.2.2.2.2.2.2.2.1 sb0 rfl,
    (hFail []).2.2.2.2.2.2.2.2.2.2.2.2.2.1 sb0 "no previous page" rfl,
    (hOk []).2.2.2.2.2.2.2.2.2.2.2.2.2.2.1 sb0 rfl,
    (hFail []).2.2.2.2.2.2.2.2.2.2.2.2.2.2.2 sb0 "no next page" rfl⟩

/-- Claim C3: dispatching `COMPLETE` with a non-empty argument list returns
`completed = true` (TERMINAL) together with exactly one agent-role message
whose content is the first `COMPLETE` argument; in the turn, the History
Buffer receives exactly that one dispatch message, and the loop performs no
further turn. -/
theorem c3_complete_terminal {σ τ : Type} (E : Env σ τ) (st : LoopSt σ τ)
    (reply : AgentReply) (a0 : String) (rest : List String)
    (hr : E.oracle (turnPrompt E st) = reply)
    (hc : reply.command = "COMPLETE") (ha : reply.args = a0 :: rest) :
    act E.A E.T E.fb E.now st.sb st.txt reply.command reply.args =
      Except.ok (true, [⟨"agent", a0, E.now⟩], st.sb, st.txt) ∧
    (runTurn E st).1.completed = true ∧
    (runTurn E st).1.fifo =
      st.fifo ++ [⟨"agent", reply.rationale, E.now⟩,
        ⟨"agent", commandContent reply, E.now⟩, ⟨"agent", a0, E.now⟩] ∧
    (∀ fuel, run E fuel (runTurn E st).1 = ((runTurn E st).1, [])) := by
  have hact : act E.A E.T E.fb E.now st.sb st.txt reply.command reply.args =
      Except.ok (true, [⟨"agent", a0, E.now⟩], st.sb, st.txt) := by
    rw [hc, ha]
    simp [act, pyGet]
  have hturn := runTurn_eq_ok E st reply true [⟨"agent", a0, E.now⟩]
    st.sb st.txt hr hact
  refine ⟨hact, ?_, ?_, ?_⟩
  · rw [hturn]
  · rw [hturn]; simp
  · intro fuel
    exact run_stop E fuel (runTurn E st).1 (Or.inl (by rw [hturn]))

/-- Witness for C3 at the spec scenario `COMPLETE ["done"]`. -/
theorem c3_witness :
    act sbOk docT fbEcho 0 sb0 [] "COMPLETE" ["done"] =
      Except.ok (true, [⟨"agent", "done", 0⟩], sb0, []) ∧
    (runTurn (envOk (fun _ => ⟨"finishing", "COMPLETE", ["done"]⟩))
        ⟨[], sb0, [], false, none⟩).1.completed = true ∧
    (runTurn (envOk (fun _ => ⟨"finishing", "COMPLETE", ["done"]⟩))
        ⟨[], sb0, [], false, none⟩).1.fifo =
      [] ++ [⟨"agent", "finishing", 0⟩, ⟨"agent", "COMPLETE done", 0⟩,
        ⟨"agent", "done", 0⟩] ∧
    run (envOk (fun _ => ⟨"finishing", "COMPLETE", ["done"]⟩)) 5
        (runTurn (envOk (fun _ => ⟨"finishing", "COMPLETE", ["done"]⟩))
          ⟨[], sb0, [], false, none⟩).1 =
      ((runTurn (envOk (fun _ => ⟨"finishing", "COMPLETE", ["done"]⟩))
          ⟨[], sb0, [], false, none⟩).1, []) := by
  have h := c3_complete_terminal
    (envOk (fun _ => ⟨"finishing", "COMPLETE", ["done"]⟩))
    ⟨[], sb0, [], false, none⟩ ⟨"finishing", "COMPLETE", ["done"]⟩
    "done" [] rfl rfl rfl
  exact ⟨h.1, h.2.1, h.2.2.1, h.2.2.2 5⟩

/-- Claim C4: the dispatcher leaves the loop in RUNNING for every command
other than `COMPLETE` — whenever a non-`COMPLETE` dispatch returns, its
`completed` component is `false`. -/
theorem c4_terminal_only_complete {σ τ : Type} (A : Actuator σ)
    (T : TxtMem τ) (fb : String → String) (now : Nat) (s : σ) (t : τ)
    (command : String) (args : List String) (done : Bool)
    (msgs : List Message) (s' : σ) (t' : τ)
    (hc : command ≠ "COMPLETE")
    (h : act A T fb now s t command args = Except.ok (done, msgs, s', t')) :
    done = false := by
  unfold act at h
  rw [if_neg hc] at h
  repeat' split at h
  all_goals simp_all

/-- Witness for C4 at a concrete `SDOWN` dispatch. -/
theorem c4_witness :
    ("SDOWN" : String) ≠ "COMPLETE" ∧
    act sbOk docT fbEcho 0 sb0 [] "SDOWN" [] =
      Except.ok (false, [browserOkMsg sbOk ⟨"about:blank", 1⟩ 0],
        ⟨"about:blank", 1⟩, []) ∧
    (false : Bool) = false :=
  ⟨by decide, rfl,
    c4_terminal_only_complete sbOk docT fbEcho 0 sb0 [] "SDOWN" [] false
      [browserOkMsg sbOk ⟨"about:blank", 1⟩ 0] ⟨"about:blank", 1⟩ []
      (by decide) rfl⟩

/-- Claim C5: dispatching a command name outside the dispatch table leaves
the loop in RUNNING and appends exactly one feedback message (the
browser-role "Invalid command." message) to the History Buffer. -/
theorem c5_unrecognized_command {σ τ : Type} (E : Env σ τ) (st : LoopSt σ τ)
    (reply : AgentReply)
    (hr : E.oracle (turnPrompt E st) = reply)
    (hc : reply.command ∉ ["COMPLETE", "YIELD", "ASK", "TINSERT", "TREPLACE",
      "VISIT", "SUP", "SDOWN", "CLICK", "TYPE", "TYPESUBMIT", "BACK",
      "FORWARD"]) :
    act E.A E.T E.fb E.now st.sb st.txt reply.command reply.args =
      Except.ok (false,
        [browserErrMsg E.A "Invalid command." st.sb E.now], st.sb, st.txt) ∧
    (runTurn E st).1.completed = false ∧
    (runTurn E st).1.fifo =
      st.fifo ++ [⟨"agent", reply.rationale, E.now⟩,
        ⟨"agent", commandContent reply, E.now⟩,
        browserErrMsg E.A "Invalid command." st.sb E.now] := by
  simp only [List.mem_cons, List.mem_singleton, not_or] at hc
  obtain ⟨h1, h2, h3, h4, h5, h6, h7, h8, h9, h10, h11, h12, h13⟩ := hc
  have hact : act E.A E.T E.fb E.now st.sb st.txt reply.command reply.args =
      Except.ok (false,
        [browserErrMsg E.A "Invalid command." st.sb E.now], st.sb, st.txt) := by
    simp [act, browserStep, h1, h2, h3, h4, h5, h6, h7, h8, h9, h10, h11,
      h12, h13]
  have hturn := runTurn_eq_ok E st reply false
    [browserErrMsg E.A "Invalid command." st.sb E.now] st.sb st.txt hr hact
  refine ⟨hact, ?_, ?_⟩
  · rw [hturn]
  · rw [hturn]; simp

/-- Witness for C5 at the unrecognized command `"FROB"`. -/
theorem c5_witness :
    act sbOk docT fbEcho 0 sb0 [] "FROB" ["x"] =
      Except.ok (false, [browserErrMsg sbOk "Invalid command." sb0 0],
        sb0, []) ∧
    (runTurn (envOk (fun _ => ⟨"trying", "FROB", ["x"]⟩))
        ⟨[], sb0, [], false, none⟩).1.completed = false ∧
    (runTurn (envOk (fun _ => ⟨"trying", "FROB", ["x"]⟩))
        ⟨[], sb0, [], false, none⟩).1.fifo =
      [] ++ [⟨"agent", "trying", 0⟩, ⟨"agent", "FROB x", 0⟩,
        browserErrMsg sbOk "Invalid command." sb0 0] :=
  c5_unrecognized_command (envOk (fun _ => ⟨"trying", "FROB", ["x"]⟩))
    ⟨[], sb0, [], false, none⟩ ⟨"trying", "FROB", ["x"]⟩ rfl (by decide)

/-- Claim C6: a `TINSERT` or `TREPLACE` dispatch whose document mutation
fails (bad line range, token-budget violation, or any other raised error)
is caught at the dispatcher boundary and converted into one document-role
("txt") feedback message, with the dispatch returning normally and the loop
still RUNNING — never a fatal error. -/
theorem c6_document_failure_nonfatal {σ τ : Type} (A : Actuator σ)
    (T : TxtMem τ) (fb : String → String) (now : Nat) (s : σ) (t : τ)
    (args : List String) :
    (∀ a1 a0 n t2 e, pyGet args 1 = Except.ok a1 →
      pyGet args 0 = Except.ok a0 → pyInt a0 = Except.ok n →
      T.insert t a1 n = (t2, some e) →
      act A T fb now s t "TINSERT" args =
        Except.ok (false, [txtErrMsg e now], s, t2)) ∧
    (∀ a2 a0 n0 a1 n1 t2 e, pyGet args 2 = Except.ok a2 →
      pyGet args 0 = Except.ok a0 → pyInt a0 = Except.ok n0 →
      pyGet args 1 = Except.ok a1 → pyInt a1 = Except.ok n1 →
      T.replace t a2 (n0, n1) = (t2, some e) →
      act A T fb now s t "TREPLACE" args =
        Except.ok (false, [txtErrMsg e now], s, t2)) := by
  refine ⟨?_, ?_⟩ <;> (intros; simp [act, *])

/-- Witness for C6: an out-of-range `TINSERT` and an out-of-bounds
`TREPLACE` on the empty concrete document, each converted into a
document-role error message with the loop RUNNING. -/
theorem c6_witness :
    act sbOk docT fbEcho 0 sb0 [] "TINSERT" ["5", "hello"] =
      Except.ok (false, [txtErrMsg "Line number out of range: 5" 0],
        sb0, []) ∧
    act sbOk docT fbEcho 0 sb0 [] "TREPLACE" ["1", "1", "x"] =
      Except.ok (false, [txtErrMsg "Line range out of bounds: 1 to 1" 0],
        sb0, []) :=
  ⟨(c6_document_failure_nonfatal sbOk docT fbEcho 0 sb0 []
      ["5", "hello"]).1 "hello" "5" 5 [] "Line number out of range: 5"
      rfl rfl rfl rfl,
    (c6_document_failure_nonfatal sbOk docT fbEcho 0 sb0 []
      ["1", "1", "x"]).2 "x" "1" 1 "1" 1 [] "Line range out of bounds: 1 to 1"
      rfl rfl rfl rfl rfl rfl⟩

/-- Claim C7: each loop turn proceeds in the order — render the prompt from
actuator state, Document and History Buffer; one oracle call; insert the
rationale message; insert the raw-action message; dispatch via `_act`;
insert the resulting message(s); re-check the terminal flag — and contains
exactly one dispatch per turn. -/
theorem c7_turn_order {σ τ : Type} (E : Env σ τ) (st : LoopSt σ τ)
    (reply : AgentReply)
    (hr : E.oracle (turnPrompt E st) = reply) :
    (∃ tail, (runTurn E st).2 =
      [Event.renderPrompt (turnPrompt E st), Event.oracleCall reply,
        Event.insertMsg ⟨"agent", reply.rationale, E.now⟩,
        Event.insertMsg ⟨"agent", commandContent reply, E.now⟩,
        Event.dispatchAct reply.command reply.args] ++ tail) ∧
    (runTurn E st).2.countP (fun ev => isDispatchEvent ev) = 1 ∧
    (∀ done msgs s2 t2,
      act E.A E.T E.fb E.now st.sb st.txt reply.command reply.args =
        Except.ok (done, msgs, s2, t2) →
      (runTurn E st).2 =
        [Event.renderPrompt (turnPrompt E st), Event.oracleCall reply,
          Event.insertMsg ⟨"agent", reply.rationale, E.now⟩,
          Event.insertMsg ⟨"agent", commandContent reply, E.now⟩,
          Event.dispatchAct reply.command reply.args] ++
          msgs.map Event.insertMsg ++ [Event.checkTerminal done]) := by
  rcases hact : act E.A E.T E.fb E.now st.sb st.txt reply.command
    reply.args with e | r
  · have hturn := runTurn_eq_error E st reply e hr hact
    refine ⟨⟨[Event.abortRun e], by rw [hturn]; simp⟩, ?_, ?_⟩
    · rw [hturn]
      simp [List.countP_cons, isDispatchEvent]
    · intro done msgs s2 t2 h
      simp at h
  · obtain ⟨done, msgs, s2, t2⟩ := r
    have hturn := runTurn_eq_ok E st reply done msgs s2 t2 hr hact
    refine ⟨⟨msgs.map Event.insertMsg ++ [Event.checkTerminal done],
      by rw [hturn]; simp⟩, ?_, ?_⟩
    · rw [hturn]
      simp [List.countP_append, List.countP_cons, isDispatchEvent,
        countP_isDispatch_map_insert]
    · intro done2 msgs2 s22 t22 h
      simp only [Except.ok.injEq, Prod.mk.injEq] at h
      obtain ⟨hd, hm, -, -⟩ := h
      subst hd; subst hm
      rw [hturn]

/-- Witness for C7 at a concrete `SDOWN` turn. -/
theorem c7_witness :
    (runTurn (envOk (fun _ => ⟨"scrolling", "SDOWN", []⟩))
        ⟨[], sb0, [], false, none⟩).2.countP
      (fun ev => isDispatchEvent ev) = 1 ∧
    (runTurn (envOk (fun _ => ⟨"scrolling", "SDOWN", []⟩))
        ⟨[], sb0, [], false, none⟩).2 =
      [Event.renderPrompt (turnPrompt (envOk (fun _ => ⟨"scrolling",
          "SDOWN", []⟩)) ⟨[], sb0, [], false, none⟩),
        Event.oracleCall ⟨"scrolling", "SDOWN", []⟩,
        Event.insertMsg ⟨"agent", "scrolling", 0⟩,
        Event.insertMsg ⟨"agent", "SDOWN ", 0⟩,
        Event.dispatchAct "SDOWN" []] ++
        [browserOkMsg sbOk ⟨"about:blank", 1⟩ 0].map Event.insertMsg ++
        [Event.checkTerminal false] :=
  ⟨(c7_turn_order (envOk (fun _ => ⟨"scrolling", "SDOWN", []⟩))
      ⟨[], sb0, [], false, none⟩ ⟨"scrolling", "SDOWN", []⟩ rfl).2.1,
    (c7_turn_order (envOk (fun _ => ⟨"scrolling", "SDOWN", []⟩))
      ⟨[], sb0, [], false, none⟩ ⟨"scrolling", "SDOWN", []⟩ rfl).2.2
      false [browserOkMsg sbOk ⟨"about:blank", 1⟩ 0] ⟨"about:blank", 1⟩ []
      rfl⟩

/-- Claim C8: for the zero-argument commands `SUP`, `SDOWN`, `BACK`,
`FORWARD`, the dispatch never accesses the argument list — dispatching with
any argument list (empty included) behaves identically to dispatching with
the empty one. -/
theorem c8_zero_arg_commands {σ τ : Type} (A : Actuator σ) (T : TxtMem τ)
    (fb : String → String) (now : Nat) (s : σ) (t : τ) (command : String)
    (args : List String)
    (hc : command = "SUP" ∨ command = "SDOWN" ∨ command = "BACK" ∨
      command = "FORWARD") :
    act A T fb now s t command args = act A T fb now s t command [] := by
  rcases hc with h | h | h | h <;> subst h <;> rfl

/-- Witness for C8: `BACK` with a junk argument list. -/
theorem c8_witness :
    (("BACK" : String) = "SUP" ∨ ("BACK" : String) = "SDOWN" ∨
      ("BACK" : String) = "BACK" ∨ ("BACK" : String) = "FORWARD") ∧
    act sbOk docT fbEcho 0 sb0 [] "BACK" ["junk", "extra"] =
      act sbOk docT fbEcho 0 sb0 [] "BACK" [] :=
  ⟨by decide,
    c8_zero_arg_commands sbOk docT fbEcho 0 sb0 [] "BACK" ["junk", "extra"]
      (by decide)⟩

/-- Claim C9 (implicit behaviour of the code): dispatching `COMPLETE`,
`YIELD` or `ASK` with an empty argument list accesses `args[0]` outside any
exception handler, so the dispatch raises an uncaught `IndexError`; in the
loop, such an uncaught dispatch error aborts the run, the History Buffer
receives no feedback message for the action (only the rationale and
raw-action messages inserted before the dispatch), and no further turn
runs. -/
theorem c9_empty_args_uncaught {σ τ : Type} (A : Actuator σ) (T : TxtMem τ)
    (fb : String → String) (now : Nat) (s : σ) (t : τ) :
    act A T fb now s t "COMPLETE" [] =
      Except.error "list index out of range" ∧
    act A T fb now s t "YIELD" [] =
      Except.error "list index out of range" ∧
    act A T fb now s t "ASK" [] =
      Except.error "list index out of range" ∧
    (∀ (E : Env σ τ) (st : LoopSt σ τ) (reply : AgentReply) (e : String),
      E.oracle (turnPrompt E st) = reply →
      act E.A E.T E.fb E.now st.sb st.txt reply.command reply.args =
        Except.error e →
      (runTurn E st).1.aborted = some e ∧
      (runTurn E st).1.fifo =
        st.fifo ++ [⟨"agent", reply.rationale, E.now⟩,
          ⟨"agent", commandContent reply, E.now⟩] ∧
      ∀ fuel, run E fuel (runTurn E st).1 = ((runTurn E st).1, [])) := by
  refine ⟨rfl, rfl, rfl, ?_⟩
  intro E st reply e hr h
  have hturn := runTurn_eq_error E st reply e hr h
  refine ⟨by rw [hturn], by rw [hturn], fun fuel => ?_⟩
  exact run_stop E fuel (runTurn E st).1 (Or.inr (by rw [hturn]; simp))

/-- Witness for C9: `COMPLETE` with no arguments in a concrete run. -/
theorem c9_witness :
    act sbOk docT fbEcho 0 sb0 [] "COMPLETE" [] =
      Except.error "list index out of range" ∧
    (runTurn (envOk (fun _ => ⟨"finish", "COMPLETE", []⟩))
        ⟨[], sb0, [], false, none⟩).1.aborted =
      some "list index out of range" ∧
    (runTurn (envOk (fun _ => ⟨"finish", "COMPLETE", []⟩))
        ⟨[], sb0, [], false, none⟩).1.fifo =
      [] ++ [⟨"agent", "finish", 0⟩, ⟨"agent", "COMPLETE ", 0⟩] ∧
    run (envOk (fun _ => ⟨"finish", "COMPLETE", []⟩)) 3
        (runTurn (envOk (fun _ => ⟨"finish", "COMPLETE", []⟩))
          ⟨[], sb0, [], false, none⟩).1 =
      ((runTurn (envOk (fun _ => ⟨"finish", "COMPLETE", []⟩))
          ⟨[], sb0, [], false, none⟩).1, []) := by
  have h := c9_empty_args_uncaught sbOk docT fbEcho 0 sb0 ([] : List String)
  have h4 := h.2.2.2 (envOk (fun _ => ⟨"finish", "COMPLETE", []⟩))
    ⟨[], sb0, [], false, none⟩ ⟨"finish", "COMPLETE", []⟩
    "list index out of range" rfl rfl
  exact ⟨h.1, h4.1, h4.2.1, h4.2.2 3⟩

/-- Claim C10 (implicit behaviour of the code): for `TINSERT` and
`TREPLACE`, argument access and integer parsing happen inside the protected
region — a missing argument or a non-integer line-number argument is caught
exactly like a Document failure and converted into a document-role error
message, the dispatch returning normally with the loop RUNNING. -/
theorem c10_parse_inside_protected {σ τ : Type} (A : Actuator σ)
    (T : TxtMem τ) (fb : String → String) (now : Nat) (s : σ) (t : τ)
    (args : List String) :
    (∀ e, pyGet args 1 = Except.error e →
      act A T fb now s t "TINSERT" args =
        Except.ok (false, [txtErrMsg e now], s, t)) ∧
    (∀ a1 a0 e, pyGet args 1 = Except.ok a1 → pyGet args 0 = Except.ok a0 →
      pyInt a0 = Except.error e →
      act A T fb now s t "TINSERT" args =
        Except.ok (false, [txtErrMsg e now], s, t)) ∧
    (∀ e, pyGet args 2 = Except.error e →
      act A T fb now s t "TREPLACE" args =
        Except.ok (false, [txtErrMsg e now], s, t)) ∧
    (∀ a2 a0 e, pyGet args 2 = Except.ok a2 → pyGet args 0 = Except.ok a0 →
      pyInt a0 = Except.error e →
      act A T fb now s t "TREPLACE" args =
        Except.ok (false, [txtErrMsg e now], s, t)) ∧
    (∀ a2 a0 n0 a1 e, pyGet args 2 = Except.ok a2 →
      pyGet args 0 = Except.ok a0 → pyInt a0 = Except.ok n0 →
      pyGet args 1 = Except.ok a1 → pyInt a1 = Except.error e →
      act A T fb now s t "TREPLACE" args =
        Except.ok (false, [txtErrMsg e now], s, t)) := by
  refine ⟨?_, ?_, ?_, ?_, ?_⟩ <;> (intros; simp [act, *])

/-- Witness for C10: a missing `TINSERT` text argument, a non-integer
`TINSERT` line number, a missing `TREPLACE` argument, and non-integer
`TREPLACE` line bounds. -/
theorem c10_witness :
    act sbOk docT fbEcho 0 sb0 [] "TINSERT" ["1"] =
      Except.ok (false, [txtErrMsg "list index out of range" 0], sb0, []) ∧
    act sbOk docT fbEcho 0 sb0 [] "TINSERT" ["abc", "hi"] =
      Except.ok (false,
        [txtErrMsg "invalid literal for int with base 10: abc" 0],
        sb0, []) ∧
    act sbOk docT fbEcho 0 sb0 [] "TREPLACE" ["1", "2"] =
      Except.ok (false, [txtErrMsg "list index out of range" 0], sb0, []) ∧
    act sbOk docT fbEcho 0 sb0 [] "TREPLACE" ["abc", "2", "x"] =
      Except.ok (false,
        [txtErrMsg "invalid literal for int with base 10: abc" 0],
        sb0, []) ∧
    act sbOk docT fbEcho 0 sb0 [] "TREPLACE" ["1", "xyz", "x"] =
      Except.ok (false,
        [txtErrMsg "invalid literal for int with base 10: xyz" 0],
        sb0, []) :=
  ⟨(c10_parse_inside_protected sbOk docT fbEcho 0 sb0 [] ["1"]).1
      "list index out of range" rfl,
    (c10_parse_inside_protected sbOk docT fbEcho 0 sb0 [] ["abc", "hi"]).2.1
      "hi" "abc" "invalid literal for int with base 10: abc" rfl rfl rfl,
    (c10_parse_inside_protected sbOk docT fbEcho 0 sb0 [] ["1", "2"]).2.2.1
      "list index out of range" rfl,
    (c10_parse_inside_protected sbOk docT fbEcho 0 sb0 []
      ["abc", "2", "x"]).2.2.2.1 "x" "abc"
      "invalid literal for int with base 10: abc" rfl rfl rfl,
    (c10_parse_inside_protected sbOk docT fbEcho 0 sb0 []
      ["1", "xyz", "x"]).2.2.2.2 "x" "1" 1 "xyz"
      "invalid literal for int with base 10: xyz" rfl rfl rfl rfl rfl⟩

end Luka
